import Mathlib

/-!
Verification development for the nekoneko-space-travel repository.

Each Python function relevant to the claims is shallowly embedded as a Lean
definition: Python floats whose values stay exact become rationals, Python
ints become integers, dict lookups with a default become if-chains over the
dict's literal keys, and external calls (SMTP, webhooks, the Stripe SDK)
become an explicit `Except` outcome passed in as a parameter, so that the
embedded function is the pure part of the Python method: how it maps the
outcome of the external world to its return value.
-/

namespace Nekoneko

/-! ## booking_agent.calculate_price -/

/-- Python's `str.lower()`: lowercase every character. -/
def pyLower (s : String) : String :=
  ⟨s.data.map Char.toLower⟩

/-- Python's `dict.get(key, default)` on a string-keyed dict of rationals. -/
def dictGetD (d : List (String × ℚ)) (key : String) (default : ℚ) : ℚ :=
  (d.lookup key).getD default

/-- The `base_prices` dict of `calculate_price` in
`src/nekoneko/agents/booking_agent.py`. -/
def base_prices : List (String × ℚ) :=
  [("moon", 1000000), ("mars", 5000000), ("space_station", 800000)]

/-- The `package_multipliers` dict of `calculate_price`: the Python floats
1.0, 1.5, 2.0 as exact rationals. -/
def package_multipliers : List (String × ℚ) :=
  [("economy", 1), ("business", 3/2), ("first", 2)]

/-- `calculate_price` from `src/nekoneko/agents/booking_agent.py`:
`base_prices.get(destination.lower(), 1000000) *
package_multipliers.get(package_type.lower(), 1.0) * days * passengers`. -/
def calculate_price (destination : String) (days : ℤ)
    (package_type : String) (passengers : ℤ) : ℚ :=
  dictGetD base_prices (pyLower destination) 1000000
    * dictGetD package_multipliers (pyLower package_type) 1
    * (days : ℚ) * (passengers : ℚ)

/-! ## safety_agent.check_health_requirements -/

/-- The `medical_history["blood_pressure"]` sub-dict: the two fields the code
reads. -/
structure BloodPressure where
  systolic : ℤ
  diastolic : ℤ

/-- The `medical_history` dict as the code accesses it: each of the five
required keys either absent (`none`) or present. Only the blood-pressure
value is ever inspected, so the other four carry an uninspected payload. -/
structure MedicalHistory where
  blood_pressure : Option BloodPressure
  heart_condition : Option String
  bone_density : Option String
  inner_ear : Option String
  vision : Option String

/-- `check_health_requirements` from `src/nekoneko/agents/safety_agent.py`:
returns False if any of the five required keys is missing, then False if
systolic > 140, then False if diastolic > 90, else True. -/
def check_health_requirements (m : MedicalHistory) : Bool :=
  if m.blood_pressure.isNone then false
  else if m.heart_condition.isNone then false
  else if m.bone_density.isNone then false
  else if m.inner_ear.isNone then false
  else if m.vision.isNone then false
  else
    match m.blood_pressure with
    | none => false
    | some bp =>
      if bp.systolic > 140 then false
      else if bp.diastolic > 90 then false
      else true

/-! ## safety_agent.monitor_space_weather and tools/space_weather.py -/

/-- The `SpaceWeather` pydantic model from `src/nekoneko/agents/safety_agent.py`. -/
structure SpaceWeather where
  solar_activity : String
  radiation_level : String
  meteoroid_risk : String
  recommendation : String

/-- `monitor_space_weather` from `src/nekoneko/agents/safety_agent.py`:
unconditionally returns one hardcoded record. -/
def monitor_space_weather : SpaceWeather :=
  { solar_activity := "moderate"
    radiation_level := "normal"
    meteoroid_risk := "low"
    recommendation := "現在の宇宙天候は安定しており、宇宙旅行に適しています。" }

/-- `self.activity_levels` from `SpaceWeatherTool.__init__`. -/
def activity_levels : List String := ["low", "moderate", "high", "extreme"]

/-- `self.risk_levels` from `SpaceWeatherTool.__init__`. -/
def risk_levels : List String := ["minimal", "low", "moderate", "high", "severe"]

/-- Python's `random.choice(l)`: picks the element at index `draw mod l.length`
for the draw the RNG produced; a uniform RNG makes every index possible. -/
def random_choice (l : List String) (draw : ℕ) : String :=
  l.getD (draw % l.length) ""

/-- `SpaceWeatherTool.get_solar_activity`: `random.choice(self.activity_levels)`. -/
def get_solar_activity (draw : ℕ) : String :=
  random_choice activity_levels draw

/-- `SpaceWeatherTool.get_radiation_level`: `random.choice(self.activity_levels)`. -/
def get_radiation_level (draw : ℕ) : String :=
  random_choice activity_levels draw

/-- `SpaceWeatherTool.get_meteoroid_risk`: `random.choice(self.risk_levels)`. -/
def get_meteoroid_risk (draw : ℕ) : String :=
  random_choice risk_levels draw

/-- `SpaceWeatherTool.get_weather_recommendation` from
`src/nekoneko/tools/space_weather.py`:
`"high" in [solar, radiation] or meteoroid in ["high", "severe"]` gives the
postpone message, else `"moderate" in [solar, radiation, meteoroid]` gives the
caution message, else the stable message. -/
def get_weather_recommendation (solar radiation meteoroid : String) : String :=
  if solar = "high" ∨ radiation = "high" ∨ meteoroid = "high" ∨ meteoroid = "severe" then
    "現在、宇宙天候が不安定です。宇宙旅行の延期をお勧めします。"
  else if solar = "moderate" ∨ radiation = "moderate" ∨ meteoroid = "moderate" then
    "宇宙天候は注意が必要ですが、適切な対策を講じれば宇宙旅行は可能です。"
  else
    "現在の宇宙天候は安定しており、宇宙旅行に適しています。"

/-! ## monitoring/alert_notifier.py

Every send method wraps its external call in a broad `except Exception`
handler: the embedded send functions take the outcome of that external call
and return the boolean the Python method returns. An uncaught Python
exception would be an `Except.error` result type, but these methods are
total into `Bool`: they never propagate. -/

/-- A Python exception, split by the only distinction the repository's
handlers make: Stripe's `stripe.error.StripeError` (carrying `str(e)` and
`e.code`) versus any other exception. -/
inductive PyExc where
  | stripeError (msg : String) (code : String)
  | otherExc (msg : String)
deriving DecidableEq

/-- `AlertNotifier.send_email_alert`: True once the SMTP send returns,
False on any exception (broad `except Exception`). -/
def send_email_alert (ext : Except PyExc Unit) : Bool :=
  match ext with
  | .ok _ => true
  | .error _ => false

/-- `AlertNotifier.send_slack_alert`: True once the webhook POST succeeds
(`raise_for_status` included in the tried region), False on any exception. -/
def send_slack_alert (ext : Except PyExc Unit) : Bool :=
  match ext with
  | .ok _ => true
  | .error _ => false

/-- `AlertNotifier.send_line_alert`: True once the LINE Notify POST succeeds,
False on any exception. -/
def send_line_alert (ext : Except PyExc Unit) : Bool :=
  match ext with
  | .ok _ => true
  | .error _ => false

/-- `AlertNotifier.send_discord_alert`: True once the Discord webhook POST
succeeds, False on any exception. -/
def send_discord_alert (ext : Except PyExc Unit) : Bool :=
  match ext with
  | .ok _ => true
  | .error _ => false

/-- The channel configuration read from the environment in
`AlertNotifier.__init__`: `os.getenv` yields `None` when unset, and the
`broadcast_alert` guards test Python truthiness, so an empty string also
counts as unconfigured. -/
structure AlertNotifier where
  slack_webhook : Option String
  line_token : Option String
  discord_webhook : Option String

/-- Python truthiness of an `Optional[str]`: `None` and `""` are falsy. -/
def truthyStr : Option String → Bool
  | none => false
  | some s => !(s == "")

/-- Python truthiness of an `Optional[List[str]]`: `None` and `[]` are falsy. -/
def truthyList : Option (List String) → Bool
  | none => false
  | some l => !l.isEmpty

/-- `AlertNotifier.broadcast_alert`: builds `results` by inserting, in order,
an "email" entry when `email_recipients` is truthy, a "slack" entry when the
Slack webhook is truthy, a "line" entry when the LINE token is truthy, and a
"discord" entry when the Discord webhook is truthy; each entry's value is the
boolean the corresponding send method returned, here passed in as the
outcome of that channel's send. -/
def broadcast_alert (n : AlertNotifier) (email_recipients : Option (List String))
    (emailRes slackRes lineRes discordRes : Bool) : List (String × Bool) :=
  (if truthyList email_recipients then [("email", emailRes)] else []) ++
  (if truthyStr n.slack_webhook then [("slack", slackRes)] else []) ++
  (if truthyStr n.line_token then [("line", lineRes)] else []) ++
  (if truthyStr n.discord_webhook then [("discord", discordRes)] else [])

/-! ## tools/payment_processor.py -/

/-- The fields of the Stripe `Charge` object that `process_payment` reads. -/
structure Charge where
  id : String
  amount : ℤ
  receipt_url : String
  status : String
  created : ℤ

/-- The fields of the Stripe `Refund` object that `process_refund` reads. -/
structure Refund where
  id : String
  amount : ℤ
  status : String
  created : ℤ

/-- The dict `process_payment` returns: either the success shape
(`success: True` with the transaction data) or the error shape
(`success: False` with `str(e)`, `e.code`, and the booking reference). -/
inductive PaymentResult where
  | ok (transaction_id : String) (amount : ℤ) (receipt_url : String)
      (status : String) (created : ℤ)
  | err (error : String) (error_code : String) (booking_ref : String)
deriving DecidableEq

/-- The `"success"` entry of a `process_payment` result dict. -/
def PaymentResult.success : PaymentResult → Bool
  | .ok _ _ _ _ _ => true
  | .err _ _ _ => false

/-- The dict `process_refund` returns, in its success and error shapes. -/
inductive RefundResult where
  | ok (refund_id : String) (amount : ℤ) (status : String) (created : ℤ)
  | err (error : String) (error_code : String) (transaction_id : String)
deriving DecidableEq

/-- The `"success"` entry of a `process_refund` result dict. -/
def RefundResult.success : RefundResult → Bool
  | .ok _ _ _ _ => true
  | .err _ _ _ => false

/-- `PaymentProcessor.process_payment`: runs `stripe.Charge.create` inside
`try ... except stripe.error.StripeError`. A successful charge yields the
success dict; a `StripeError` is caught and yields the error dict; any other
exception from the call is NOT caught and propagates to the caller, so the
embedded function returns `Except.error` in that case. -/
def process_payment (outcome : Except PyExc Charge) (booking_ref : String) :
    Except PyExc PaymentResult :=
  match outcome with
  | .ok ch => .ok (.ok ch.id ch.amount ch.receipt_url ch.status ch.created)
  | .error (.stripeError msg code) => .ok (.err msg code booking_ref)
  | .error (.otherExc msg) => .error (.otherExc msg)

/-- `PaymentProcessor.process_refund`: runs `stripe.Refund.create` inside
`try ... except stripe.error.StripeError`; same shape as `process_payment`. -/
def process_refund (outcome : Except PyExc Refund) (transaction_id : String) :
    Except PyExc RefundResult :=
  match outcome with
  | .ok rf => .ok (.ok rf.id rf.amount rf.status rf.created)
  | .error (.stripeError msg code) => .ok (.err msg code transaction_id)
  | .error (.otherExc msg) => .error (.otherExc msg)

/-! ## monitoring/system_monitor.py -/

/-- The `alert_threshold` dict of `SystemMonitor.__init__`; the default is
cpu_percent 80.0, memory_percent 85.0, disk_percent 90.0,
network_error_rate 0.01. -/
structure AlertThresholds where
  cpu_percent : ℚ
  memory_percent : ℚ
  disk_percent : ℚ
  network_error_rate : ℚ

/-- The default `alert_threshold` used when none is supplied. -/
def default_alert_threshold : AlertThresholds :=
  { cpu_percent := 80
    memory_percent := 85
    disk_percent := 90
    network_error_rate := 1/100 }

/-- One successful `check_system_resources` measurement: the three float
entries of the returned dict (the fourth entry, `timestamp`, is a string and
is never in `alert_threshold`, so the loop's `key in self.alert_threshold`
guard skips it). -/
structure ResourceMetrics where
  cpu_percent : ℚ
  memory_percent : ℚ
  disk_percent : ℚ

/-- The resource-alert pass of one `_monitoring_loop` iteration: for each
measured entry whose key is in `alert_threshold` and whose value strictly
exceeds the threshold, `self.alert("resource_threshold_exceeded", ...)` is
called with the metric name, measured value, and threshold. The returned
list is, in iteration order, the detail dicts of the alerts raised. -/
def resource_alerts (th : AlertThresholds) (r : ResourceMetrics) :
    List (String × ℚ × ℚ) :=
  (if r.cpu_percent > th.cpu_percent then
      [("cpu_percent", r.cpu_percent, th.cpu_percent)] else []) ++
  (if r.memory_percent > th.memory_percent then
      [("memory_percent", r.memory_percent, th.memory_percent)] else []) ++
  (if r.disk_percent > th.disk_percent then
      [("disk_percent", r.disk_percent, th.disk_percent)] else [])

/-! ## tools/training_simulator.py -/

/-- The `TrainingType` enum. -/
inductive TrainingType where
  | zero_gravity
  | emergency
  | spacecraft
  | health
  | communication
deriving DecidableEq

instance : Fintype TrainingType where
  elems := ⟨([.zero_gravity, .emergency, .spacecraft, .health, .communication] :
      List TrainingType), by decide⟩
  complete := fun x => by cases x <;> decide

/-- The `duration_days` entry of each program in
`TrainingSimulator.__init__`'s `training_programs` table. -/
def duration_days : TrainingType → ℤ
  | .zero_gravity => 5
  | .emergency => 3
  | .spacecraft => 7
  | .health => 2
  | .communication => 1

/-- One entry of the schedule's `training_modules` list; dates are days
(a `timedelta(days=k)` is `+ k`), and the fields the claims inspect. -/
structure TrainingModule where
  type : TrainingType
  start_date : ℤ
  end_date : ℤ
deriving DecidableEq

/-- The schedule dict `create_training_schedule` returns. -/
structure TrainingSchedule where
  trainee_name : String
  start_date : ℤ
  end_date : ℤ
  departure_date : ℤ
  training_modules : List TrainingModule

/-- The module-building loop of `create_training_schedule`: starting at
`current_date`, each training type contributes a module running from
`current_date` to `current_date + duration_days`, after which `current_date`
advances by `duration_days + 1`. -/
def build_modules (current : ℤ) : List TrainingType → List TrainingModule
  | [] => []
  | t :: rest =>
    { type := t, start_date := current, end_date := current + duration_days t } ::
      build_modules (current + duration_days t + 1) rest

/-- `sum(self.training_programs[t]["duration_days"] for t in training_types)`. -/
def total_days (ts : List TrainingType) : ℤ :=
  (ts.map duration_days).sum

/-- `TrainingSimulator.create_training_schedule`: the start date is the
departure date minus `total_days + 14`, the schedule-level end date is the
departure date minus 7, and the modules are laid out by the loop above. -/
def create_training_schedule (trainee_name : String) (departure_date : ℤ)
    (training_types : List TrainingType) : TrainingSchedule :=
  let start_date := departure_date - (total_days training_types + 14)
  { trainee_name := trainee_name
    start_date := start_date
    end_date := departure_date - 7
    departure_date := departure_date
    training_modules := build_modules start_date training_types }

/-! ## Helper lemmas -/

lemma base_price_lookup_eq (k : String) : dictGetD base_prices k 1000000 =
    if k = "moon" then 1000000 else if k = "mars" then 5000000
    else if k = "space_station" then 800000 else 1000000 := by
  by_cases h1 : k = "moon"
  · subst h1; simp [dictGetD, base_prices, List.lookup]
  by_cases h2 : k = "mars"
  · subst h2; simp [dictGetD, base_prices, List.lookup]
  by_cases h3 : k = "space_station"
  · subst h3; simp [dictGetD, base_prices, List.lookup]
  have e1 : (k == "moon") = false := beq_eq_false_iff_ne.mpr h1
  have e2 : (k == "mars") = false := beq_eq_false_iff_ne.mpr h2
  have e3 : (k == "space_station") = false := beq_eq_false_iff_ne.mpr h3
  simp [dictGetD, base_prices, List.lookup, e1, e2, e3, h1, h2, h3]

lemma multiplier_lookup_eq (k : String) : dictGetD package_multipliers k 1 =
    if k = "economy" then 1 else if k = "business" then 3/2
    else if k = "first" then 2 else 1 := by
  by_cases h1 : k = "economy"
  · subst h1; simp [dictGetD, package_multipliers, List.lookup]
  by_cases h2 : k = "business"
  · subst h2; simp [dictGetD, package_multipliers, List.lookup]
  by_cases h3 : k = "first"
  · subst h3; simp [dictGetD, package_multipliers, List.lookup]
  have e1 : (k == "economy") = false := beq_eq_false_iff_ne.mpr h1
  have e2 : (k == "business") = false := beq_eq_false_iff_ne.mpr h2
  have e3 : (k == "first") = false := beq_eq_false_iff_ne.mpr h3
  simp [dictGetD, package_multipliers, List.lookup, e1, e2, e3, h1, h2, h3]

lemma base_price_lookup_pos (k : String) : 0 < dictGetD base_prices k 1000000 := by
  rw [base_price_lookup_eq]
  split_ifs <;> norm_num

lemma multiplier_lookup_pos (k : String) : 0 < dictGetD package_multipliers k 1 := by
  rw [multiplier_lookup_eq]
  split_ifs <;> norm_num

/-! ## Claim theorems -/

/-- Claim C1: `calculate_price` returns base price times package multiplier times
days times passengers, where the base price is the static table
moon ↦ 1000000, mars ↦ 5000000, space_station ↦ 800000 with default 1000000
for an unknown destination, the multiplier is economy ↦ 1.0, business ↦ 1.5,
first ↦ 2.0 with default 1.0 for an unknown package type, and both lookups
are on the lowered key. -/
theorem calculate_price_formula (destination : String) (days : ℤ)
    (package_type : String) (passengers : ℤ)
    (hdays : 0 < days) (hpas : 0 < passengers) :
    calculate_price destination days package_type passengers =
      (if pyLower destination = "moon" then (1000000 : ℚ)
        else if pyLower destination = "mars" then 5000000
        else if pyLower destination = "space_station" then 800000
        else 1000000)
      * (if pyLower package_type = "economy" then (1 : ℚ)
          else if pyLower package_type = "business" then 3/2
          else if pyLower package_type = "first" then 2
          else 1)
      * (days : ℚ) * (passengers : ℚ) := by
  rw [calculate_price, base_price_lookup_eq, multiplier_lookup_eq]

/-- Witness for C1: a moon economy trip, 3 days, 2 passengers, costs
1000000 × 1.0 × 3 × 2 = 6000000. -/
theorem calculate_price_formula_witness :
    calculate_price "Moon" 3 "Economy" 2 = 6000000 := by
  have h := calculate_price_formula "Moon" 3 "Economy" 2 (by decide) (by decide)
  rw [h, show pyLower "Moon" = "moon" from by decide,
    show pyLower "Economy" = "economy" from by decide]
  norm_num

/-- Claim C2: for a fixed destination, `calculate_price` is monotonically
non-decreasing in days, in passengers, and in package tier
(economy ≤ business ≤ first), over non-negative integer days and
passengers. -/
theorem calculate_price_monotone (destination package_type : String)
    (days days' passengers passengers' : ℤ)
    (h0d : 0 ≤ days) (hdd : days ≤ days')
    (h0p : 0 ≤ passengers) (hpp : passengers ≤ passengers') :
    calculate_price destination days package_type passengers ≤
        calculate_price destination days' package_type passengers ∧
    calculate_price destination days package_type passengers ≤
        calculate_price destination days package_type passengers' ∧
    calculate_price destination days "economy" passengers ≤
        calculate_price destination days "business" passengers ∧
    calculate_price destination days "business" passengers ≤
        calculate_price destination days "first" passengers := by
  have hK := base_price_lookup_pos (pyLower destination)
  have hM := multiplier_lookup_pos (pyLower package_type)
  have hdq : (days : ℚ) ≤ (days' : ℚ) := by exact_mod_cast hdd
  have h0dq : (0 : ℚ) ≤ (days : ℚ) := by exact_mod_cast h0d
  have hpq : (passengers : ℚ) ≤ (passengers' : ℚ) := by exact_mod_cast hpp
  have h0pq : (0 : ℚ) ≤ (passengers : ℚ) := by exact_mod_cast h0p
  have heco : dictGetD package_multipliers (pyLower "economy") 1 = 1 := by
    rw [show pyLower "economy" = "economy" from by decide, multiplier_lookup_eq]
    simp
  have hbus : dictGetD package_multipliers (pyLower "business") 1 = 3/2 := by
    rw [show pyLower "business" = "business" from by decide, multiplier_lookup_eq]
    simp
  have hfst : dictGetD package_multipliers (pyLower "first") 1 = 2 := by
    rw [show pyLower "first" = "first" from by decide, multiplier_lookup_eq]
    simp
  refine ⟨?_, ?_, ?_, ?_⟩
  · unfold calculate_price
    exact mul_le_mul_of_nonneg_right
      (mul_le_mul_of_nonneg_left hdq (mul_nonneg hK.le hM.le)) h0pq
  · unfold calculate_price
    exact mul_le_mul_of_nonneg_left hpq
      (mul_nonneg (mul_nonneg hK.le hM.le) h0dq)
  · unfold calculate_price
    rw [heco, hbus]
    have hstep : dictGetD base_prices (pyLower destination) 1000000 * 1 ≤
        dictGetD base_prices (pyLower destination) 1000000 * (3/2) := by
      nlinarith [hK]
    exact mul_le_mul_of_nonneg_right
      (mul_le_mul_of_nonneg_right hstep h0dq) h0pq
  · unfold calculate_price
    rw [hbus, hfst]
    have hstep : dictGetD base_prices (pyLower destination) 1000000 * (3/2) ≤
        dictGetD base_prices (pyLower destination) 1000000 * 2 := by
      nlinarith [hK]
    exact mul_le_mul_of_nonneg_right
      (mul_le_mul_of_nonneg_right hstep h0dq) h0pq

/-- Witness for C2: 2 ≤ 5 days, 1 ≤ 3 passengers, moon: all four
inequalities hold at a concrete instantiation. -/
theorem calculate_price_monotone_witness :
    calculate_price "moon" 2 "economy" 1 ≤ calculate_price "moon" 5 "economy" 1 ∧
    calculate_price "moon" 2 "economy" 1 ≤ calculate_price "moon" 2 "economy" 3 ∧
    calculate_price "moon" 2 "economy" 1 ≤ calculate_price "moon" 2 "business" 1 ∧
    calculate_price "moon" 2 "business" 1 ≤ calculate_price "moon" 2 "first" 1 :=
  calculate_price_monotone "moon" "economy" 2 5 1 3
    (by decide) (by decide) (by decide) (by decide)

/-- Claim C3: `check_health_requirements` succeeds exactly when all five required
fields are present and the blood-pressure values do not exceed their fixed
thresholds (systolic ≤ 140 and diastolic ≤ 90); it fails whenever a field is
absent or a threshold is exceeded. -/
theorem check_health_requirements_iff (m : MedicalHistory) :
    check_health_requirements m = true ↔
      (m.blood_pressure.isSome ∧ m.heart_condition.isSome ∧
        m.bone_density.isSome ∧ m.inner_ear.isSome ∧ m.vision.isSome ∧
        ∀ bp, m.blood_pressure = some bp →
          bp.systolic ≤ 140 ∧ bp.diastolic ≤ 90) := by
  obtain ⟨bp, hc, bd, ie, vi⟩ := m
  cases bp with
  | none => simp [check_health_requirements]
  | some bpv =>
    obtain ⟨sys, dia⟩ := bpv
    cases hc <;> cases bd <;> cases ie <;> cases vi <;>
      simp [check_health_requirements]

/-- Witness for C3: a complete history at systolic 120 / diastolic 80
passes the check. -/
theorem check_health_requirements_iff_witness :
    check_health_requirements
      { blood_pressure := some { systolic := 120, diastolic := 80 }
        heart_condition := some "normal"
        bone_density := some "normal"
        inner_ear := some "normal"
        vision := some "normal" } = true := by
  rw [check_health_requirements_iff]
  refine ⟨rfl, rfl, rfl, rfl, rfl, ?_⟩
  intro bpv h
  cases h
  exact ⟨by decide, by decide⟩

/-- Claim C5: every `AlertNotifier` send method maps a successful external call to
True and any exception from the call to False; each is a total function into
`Bool`, so no exception ever propagates to the caller. -/
theorem send_alert_exception_safety (exc : PyExc) :
    send_email_alert (Except.error exc) = false ∧
    send_slack_alert (Except.error exc) = false ∧
    send_line_alert (Except.error exc) = false ∧
    send_discord_alert (Except.error exc) = false ∧
    send_email_alert (Except.ok ()) = true ∧
    send_slack_alert (Except.ok ()) = true ∧
    send_line_alert (Except.ok ()) = true ∧
    send_discord_alert (Except.ok ()) = true :=
  ⟨rfl, rfl, rfl, rfl, rfl, rfl, rfl, rfl⟩

/-- Claim C6 counterexample: the payment handlers catch only `StripeError`, so an
SDK call that raises any other exception (for example a `TypeError`)
propagates out of `process_payment` and `process_refund` instead of producing
the error dict the claim promises. -/
theorem payment_exception_propagates_cex :
    process_payment (Except.error (PyExc.otherExc "TypeError: int expected"))
        "BK-001" =
      Except.error (PyExc.otherExc "TypeError: int expected") ∧
    process_refund (Except.error (PyExc.otherExc "TypeError: int expected"))
        "ch_123" =
      Except.error (PyExc.otherExc "TypeError: int expected") :=
  ⟨rfl, rfl⟩

/-- Claim C6 amended: `process_payment` and `process_refund` wrap their single
outbound SDK call in a handler for the SDK's `StripeError` only: on a
`StripeError` they return a dict with success False, the error message, and
the error code (no `StripeError` propagates), and on success a dict with
success True and the transaction/refund id; an exception of any other type
is not caught and propagates to the caller. -/
theorem payment_stripe_error_handling (ch : Charge) (rf : Refund)
    (msg code booking_ref transaction_id other : String) :
    process_payment (Except.ok ch) booking_ref =
      Except.ok (PaymentResult.ok ch.id ch.amount ch.receipt_url
        ch.status ch.created) ∧
    (PaymentResult.ok ch.id ch.amount ch.receipt_url ch.status
      ch.created).success = true ∧
    process_payment (Except.error (PyExc.stripeError msg code)) booking_ref =
      Except.ok (PaymentResult.err msg code booking_ref) ∧
    (PaymentResult.err msg code booking_ref).success = false ∧
    process_refund (Except.ok rf) transaction_id =
      Except.ok (RefundResult.ok rf.id rf.amount rf.status rf.created) ∧
    (RefundResult.ok rf.id rf.amount rf.status rf.created).success = true ∧
    process_refund (Except.error (PyExc.stripeError msg code)) transaction_id =
      Except.ok (RefundResult.err msg code transaction_id) ∧
    (RefundResult.err msg code transaction_id).success = false ∧
    process_payment (Except.error (PyExc.otherExc other)) booking_ref =
      Except.error (PyExc.otherExc other) ∧
    process_refund (Except.error (PyExc.otherExc other)) transaction_id =
      Except.error (PyExc.otherExc other) :=
  ⟨rfl, rfl, rfl, rfl, rfl, rfl, rfl, rfl, rfl, rfl⟩

/-- Claim C4: `broadcast_alert` returns a dict with exactly one boolean entry per
configured channel: an "email" entry iff a non-empty recipient list was
supplied, a "slack"/"line"/"discord" entry iff the corresponding webhook or
token is configured (truthy), each holding that channel's independent send
result, and no other keys. -/
theorem broadcast_alert_channels (n : AlertNotifier)
    (er : Option (List String)) (e s l d : Bool) :
    ((broadcast_alert n er e s l d).lookup "email" =
      if truthyList er then some e else none) ∧
    ((broadcast_alert n er e s l d).lookup "slack" =
      if truthyStr n.slack_webhook then some s else none) ∧
    ((broadcast_alert n er e s l d).lookup "line" =
      if truthyStr n.line_token then some l else none) ∧
    ((broadcast_alert n er e s l d).lookup "discord" =
      if truthyStr n.discord_webhook then some d else none) ∧
    (∀ k : String, k ≠ "email" → k ≠ "slack" → k ≠ "line" → k ≠ "discord" →
      (broadcast_alert n er e s l d).lookup k = none) ∧
    ((broadcast_alert n er e s l d).map Prod.fst).Nodup := by
  refine ⟨?_, ?_, ?_, ?_, ?_, ?_⟩
  case refine_5 =>
    intro k hk1 hk2 hk3 hk4
    have e1 : (k == "email") = false := beq_eq_false_iff_ne.mpr hk1
    have e2 : (k == "slack") = false := beq_eq_false_iff_ne.mpr hk2
    have e3 : (k == "line") = false := beq_eq_false_iff_ne.mpr hk3
    have e4 : (k == "discord") = false := beq_eq_false_iff_ne.mpr hk4
    cases h1 : truthyList er <;> cases h2 : truthyStr n.slack_webhook <;>
      cases h3 : truthyStr n.line_token <;>
      cases h4 : truthyStr n.discord_webhook <;>
      simp [broadcast_alert, h1, h2, h3, h4, List.lookup, e1, e2, e3, e4]
  all_goals
    cases h1 : truthyList er <;> cases h2 : truthyStr n.slack_webhook <;>
      cases h3 : truthyStr n.line_token <;>
      cases h4 : truthyStr n.discord_webhook <;>
      simp [broadcast_alert, h1, h2, h3, h4, List.lookup]

/-- Witness for C4: with recipients supplied, Slack and Discord configured
but LINE unset, the result holds email, slack, and discord entries, no line
entry, and no foreign key. -/
theorem broadcast_alert_channels_witness :
    ((broadcast_alert
        { slack_webhook := some "https://hooks.slack.example/T000"
          line_token := none
          discord_webhook := some "https://discord.example/api/webhooks/1" }
        (some ["admin@nekoneko-space.travel"])
        true false true false).lookup "line" = none) ∧
    ((broadcast_alert
        { slack_webhook := some "https://hooks.slack.example/T000"
          line_token := none
          discord_webhook := some "https://discord.example/api/webhooks/1" }
        (some ["admin@nekoneko-space.travel"])
        true false true false).lookup "pagerduty" = none) := by
  have h := broadcast_alert_channels
    { slack_webhook := some "https://hooks.slack.example/T000"
      line_token := none
      discord_webhook := some "https://discord.example/api/webhooks/1" }
    (some ["admin@nekoneko-space.travel"]) true false true false
  exact ⟨by rw [h.2.2.1]; rfl,
    h.2.2.2.2.1 "pagerduty" (by decide) (by decide) (by decide) (by decide)⟩

lemma random_choice_mem (l : List String) (draw : ℕ) (h : l ≠ []) :
    random_choice l draw ∈ l := by
  unfold random_choice
  have hlen : 0 < l.length := List.length_pos.mpr h
  have hlt : draw % l.length < l.length := Nat.mod_lt _ hlen
  rw [List.getD_eq_getElem l "" hlt]
  exact List.getElem_mem hlt

/-- Claim C7 counterexample: `get_meteoroid_risk` draws from `risk_levels`, which
has five strings, so no four fixed strings cover every possible draw: the
draws 0–4 already produce five pairwise distinct results. -/
theorem get_meteoroid_risk_not_four_cex :
    ¬ ∃ a b c d : String, ∀ draw : ℕ,
      get_meteoroid_risk draw ∈ [a, b, c, d] := by
  rintro ⟨a, b, c, d, h⟩
  have h0 : "minimal" ∈ [a, b, c, d] := by
    have := h 0
    rwa [show get_meteoroid_risk 0 = "minimal" from by decide] at this
  have h1 : "low" ∈ [a, b, c, d] := by
    have := h 1
    rwa [show get_meteoroid_risk 1 = "low" from by decide] at this
  have h2 : "moderate" ∈ [a, b, c, d] := by
    have := h 2
    rwa [show get_meteoroid_risk 2 = "moderate" from by decide] at this
  have h3 : "high" ∈ [a, b, c, d] := by
    have := h 3
    rwa [show get_meteoroid_risk 3 = "high" from by decide] at this
  have h4 : "severe" ∈ [a, b, c, d] := by
    have := h 4
    rwa [show get_meteoroid_risk 4 = "severe" from by decide] at this
  have hsub : risk_levels.toFinset ⊆ [a, b, c, d].toFinset := by
    intro x hx
    simp [risk_levels] at hx
    rcases hx with rfl | rfl | rfl | rfl | rfl
    · simpa using h0
    · simpa using h1
    · simpa using h2
    · simpa using h3
    · simpa using h4
  have hcard5 : risk_levels.toFinset.card = 5 := by decide
  have hle : risk_levels.toFinset.card ≤ [a, b, c, d].toFinset.card :=
    Finset.card_le_card hsub
  have hlen : [a, b, c, d].toFinset.card ≤ 4 := by
    calc [a, b, c, d].toFinset.card
        ≤ [a, b, c, d].length := [a, b, c, d].toFinset_card_le
      _ = 4 := rfl
  omega

/-- Claim C7 amended: `monitor_space_weather` always returns the one hardcoded
record (solar "moderate", radiation "normal", meteoroid "low" with the fixed
recommendation); `get_solar_activity` and `get_radiation_level` each return,
for every draw, one of the four `activity_levels` strings, while
`get_meteoroid_risk` returns one of the five `risk_levels` strings. -/
theorem space_weather_sources :
    monitor_space_weather =
      { solar_activity := "moderate"
        radiation_level := "normal"
        meteoroid_risk := "low"
        recommendation := "現在の宇宙天候は安定しており、宇宙旅行に適しています。" } ∧
    (∀ draw : ℕ, get_solar_activity draw ∈ activity_levels) ∧
    (∀ draw : ℕ, get_radiation_level draw ∈ activity_levels) ∧
    (∀ draw : ℕ, get_meteoroid_risk draw ∈ risk_levels) ∧
    activity_levels.length = 4 ∧ risk_levels.length = 5 := by
  refine ⟨rfl, ?_, ?_, ?_, rfl, rfl⟩
  · exact fun draw => random_choice_mem activity_levels draw (by decide)
  · exact fun draw => random_choice_mem activity_levels draw (by decide)
  · exact fun draw => random_choice_mem risk_levels draw (by decide)

/-- Claim C8: in one polling-loop iteration over a successful resource
measurement, a resource_threshold_exceeded alert is raised for a metric iff
its measured value strictly exceeds the default threshold (cpu 80.0,
memory 85.0, disk 90.0); no alert is raised while every value is at or below
its threshold, and every raised alert records a value above its threshold. -/
theorem resource_alerts_iff (r : ResourceMetrics) :
    (("cpu_percent", r.cpu_percent, (80 : ℚ)) ∈
        resource_alerts default_alert_threshold r ↔ 80 < r.cpu_percent) ∧
    (("memory_percent", r.memory_percent, (85 : ℚ)) ∈
        resource_alerts default_alert_threshold r ↔ 85 < r.memory_percent) ∧
    (("disk_percent", r.disk_percent, (90 : ℚ)) ∈
        resource_alerts default_alert_threshold r ↔ 90 < r.disk_percent) ∧
    (resource_alerts default_alert_threshold r = [] ↔
      r.cpu_percent ≤ 80 ∧ r.memory_percent ≤ 85 ∧ r.disk_percent ≤ 90) ∧
    (∀ nm : String, ∀ v t : ℚ,
      (nm, v, t) ∈ resource_alerts default_alert_threshold r → t < v) := by
  unfold resource_alerts default_alert_threshold
  split_ifs with h1 h2 h3 h4 h5 h6 h7 <;> simp_all <;>
    first
      | (rintro nm v t (⟨-, rfl, rfl⟩ | ⟨-, rfl, rfl⟩ | ⟨-, rfl, rfl⟩) <;>
          assumption)
      | (rintro nm v t (⟨-, rfl, rfl⟩ | ⟨-, rfl, rfl⟩) <;> assumption)

/-- Witness for C8: at cpu 95 / memory 50 / disk 50, a cpu alert is in the
raised list; at cpu 70 / memory 50 / disk 50, no alert is raised. -/
theorem resource_alerts_iff_witness :
    ("cpu_percent", (95 : ℚ), (80 : ℚ)) ∈
      resource_alerts default_alert_threshold
        { cpu_percent := 95, memory_percent := 50, disk_percent := 50 } ∧
    resource_alerts default_alert_threshold
        { cpu_percent := 70, memory_percent := 50, disk_percent := 50 } = [] :=
  ⟨(resource_alerts_iff
      { cpu_percent := 95, memory_percent := 50, disk_percent := 50 }).1.mpr
        (by norm_num),
    (resource_alerts_iff
      { cpu_percent := 70, memory_percent := 50, disk_percent := 50 }).2.2.2.1.mpr
        (by norm_num)⟩

/-- Claim C9: `get_weather_recommendation` returns the postpone-travel message
whenever solar activity or radiation is "high" or the meteoroid risk is
"high" or "severe"; yet on the sensor-producible input solar "extreme",
radiation "low", meteoroid "minimal" it returns the weather-is-stable
message even though "extreme" is the most severe activity level. -/
theorem weather_recommendation_blindspot :
    (∀ solar radiation meteoroid : String,
      solar = "high" ∨ radiation = "high" ∨
        meteoroid = "high" ∨ meteoroid = "severe" →
      get_weather_recommendation solar radiation meteoroid =
        "現在、宇宙天候が不安定です。宇宙旅行の延期をお勧めします。") ∧
    "extreme" ∈ activity_levels ∧ "low" ∈ activity_levels ∧
    "minimal" ∈ risk_levels ∧
    get_weather_recommendation "extreme" "low" "minimal" =
      "現在の宇宙天候は安定しており、宇宙旅行に適しています。" := by
  refine ⟨?_, by decide, by decide, by decide, by decide⟩
  intro solar radiation meteoroid h
  unfold get_weather_recommendation
  rw [if_pos h]

/-- Witness for C9: a "high" solar reading yields the postpone message. -/
theorem weather_recommendation_blindspot_witness :
    get_weather_recommendation "high" "moderate" "minimal" =
      "現在、宇宙天候が不安定です。宇宙旅行の延期をお勧めします。" :=
  weather_recommendation_blindspot.1 "high" "moderate" "minimal" (Or.inl rfl)

lemma duration_days_pos (t : TrainingType) : 0 < duration_days t := by
  cases t <;> decide

lemma total_days_cons (t : TrainingType) (rest : List TrainingType) :
    total_days (t :: rest) = duration_days t + total_days rest := by
  simp [total_days]

lemma total_days_nonneg (ts : List TrainingType) : 0 ≤ total_days ts := by
  induction ts with
  | nil => simp [total_days]
  | cons t rest ih =>
    rw [total_days_cons]
    have := duration_days_pos t
    omega

lemma chain'_build_modules (ts : List TrainingType) (c : ℤ) :
    List.Chain' (fun a b => a.end_date + 1 ≤ b.start_date)
      (build_modules c ts) := by
  induction ts generalizing c with
  | nil => simp [build_modules]
  | cons t rest ih =>
    cases rest with
    | nil => simp [build_modules]
    | cons u rest2 =>
      rw [build_modules, build_modules]
      rw [List.chain'_cons]
      constructor
      · simp
      · rw [← build_modules]
        exact ih (c + duration_days t + 1)

lemma build_modules_end_le (ts : List TrainingType) (c : ℤ) :
    ∀ m ∈ build_modules c ts,
      m.end_date ≤ c + total_days ts + ts.length - 1 := by
  induction ts generalizing c with
  | nil => simp [build_modules]
  | cons t rest ih =>
    intro m hm
    rw [build_modules] at hm
    rcases List.mem_cons.mp hm with rfl | hm2
    · have h1 := total_days_nonneg rest
      rw [total_days_cons]
      simp
      omega
    · have h2 := ih (c + duration_days t + 1) m hm2
      rw [total_days_cons]
      simp at h2 ⊢
      omega

lemma nodup_length_le (ts : List TrainingType) (h : ts.Nodup) :
    ts.length ≤ 5 := by
  have := h.length_le_card
  simpa using this

/-- Claim C10: for any trainee, departure date, and non-empty duplicate-free list
of training types (drawn from the five defined programs), the schedule's
modules are pairwise non-overlapping in order — each module starts at least
one day after the previous module's end date — and every module ends at
least 7 days before the departure date. -/
theorem create_training_schedule_invariants (name : String) (dep : ℤ)
    (ts : List TrainingType) (hne : ts ≠ []) (hnd : ts.Nodup) :
    List.Chain' (fun a b => a.end_date + 1 ≤ b.start_date)
      (create_training_schedule name dep ts).training_modules ∧
    ∀ m ∈ (create_training_schedule name dep ts).training_modules,
      m.end_date ≤ dep - 7 := by
  constructor
  · exact chain'_build_modules ts (dep - (total_days ts + 14))
  · intro m hm
    have hb := build_modules_end_le ts (dep - (total_days ts + 14)) m hm
    have hlen := nodup_length_le ts hnd
    omega

/-- Witness for C10: zero-gravity then emergency training before a
departure on day 100. -/
theorem create_training_schedule_invariants_witness :
    List.Chain' (fun a b => a.end_date + 1 ≤ b.start_date)
      (create_training_schedule "宇宙猫太郎" 100
        [TrainingType.zero_gravity, TrainingType.emergency]).training_modules ∧
    ∀ m ∈ (create_training_schedule "宇宙猫太郎" 100
        [TrainingType.zero_gravity, TrainingType.emergency]).training_modules,
      m.end_date ≤ 100 - 7 :=
  create_training_schedule_invariants "宇宙猫太郎" 100
    [TrainingType.zero_gravity, TrainingType.emergency] (by decide) (by decide)

end Nekoneko
